import Mathlib

/-!
Shallow embedding of `src/src/imgui_nx/imgui_nx.cpp`, the ImGui platform
backend shim for the Nintendo Switch (libnx).  Floats are modelled as
rationals, the file-scope globals (`s_width`, `s_height`, `s_mousePos`,
the applet-hook cookie and the static `prev` time point of `newFrame`)
together with the relevant fields of the ImGui IO and style structures
are gathered into one explicit state record, and each entry point of the
file becomes a pure state-transition function.
-/

namespace ImguiNx

/-- Operation modes returned by `appletGetOperationMode`.  The SDK enum has
named values for handheld and docked; `other n` stands for any further
value the enum might take. -/
inductive AppletOperationMode
  | handheld
  | docked
  | other (n : Nat)
deriving DecidableEq, Repr

/-- Applet hook event types.  The code only distinguishes
`AppletHookType_OnOperationMode` from everything else, so all other
event types are collapsed into `otherEvent n`. -/
inductive AppletHookType
  | onOperationMode
  | otherEvent (n : Nat)
deriving DecidableEq, Repr

/-- The fields of the ImGui IO structure that `imgui_nx.cpp` reads or
writes.  Font-atlas activity is tracked by `fontsAdded` (number of
`AddFontFromMemoryTTF` calls), the `NoPowerOfTwoHeight` atlas flag and a
`fontAtlasBuilt` flag for the `Build` call. -/
structure ImGuiIo where
  displaySizeX : ℚ
  displaySizeY : ℚ
  displayFramebufferScaleX : ℚ
  displayFramebufferScaleY : ℚ
  deltaTime : ℚ
  mousePosX : ℚ
  mousePosY : ℚ
  mouseDown0 : Bool
  fontGlobalScale : ℚ
  mouseDrawCursor : Bool
  iniFilenameDisabled : Bool
  configFlagsIsTouchScreen : Bool
  fontsAdded : Nat
  fontAtlasNoPowTwoHeight : Bool
  fontAtlasBuilt : Bool
deriving DecidableEq, Repr

/-- The fields of the ImGui style the file touches: `WindowRounding`, and
an accumulated factor `sizeScale` standing for the effect of
`ScaleAllSizes` on all scalable style sizes. -/
structure ImGuiStyle where
  windowRounding : ℚ
  sizeScale : ℚ
deriving DecidableEq, Repr

/-- `ScaleAllSizes` multiplies every scalable style size by the factor. -/
def scaleAllSizes (st : ImGuiStyle) (f : ℚ) : ImGuiStyle :=
  { st with sizeScale := st.sizeScale * f }

/-- Process-wide state of the backend: the file-scope globals of
`imgui_nx.cpp`, the static `prev` time point of `newFrame`, whether the
applet hook is currently registered (the cookie), how many times
`appletHook` has been called, and the ImGui IO/style state. -/
structure NxState where
  s_width : ℚ
  s_height : ℚ
  s_mousePosX : ℚ
  s_mousePosY : ℚ
  prevTime : ℚ
  hookActive : Bool
  hookRegistrations : Nat
  style : ImGuiStyle
  io : ImGuiIo
deriving DecidableEq, Repr

/-- `std::clamp(v, lo, hi)`: `lo` if `v < lo`, else `hi` if `hi < v`,
else `v`. -/
def stdClamp (v lo hi : ℚ) : ℚ :=
  if v < lo then lo else if hi < v then hi else v

/-- `handleAppletHook`: ignores every event type other than
`OnOperationMode`; otherwise switches on the current operation mode,
where the `default` label shares the handheld branch, so every mode
other than docked takes the 720p branch. -/
def handleAppletHook (t : AppletHookType) (mode : AppletOperationMode)
    (s : NxState) : NxState :=
  if t ≠ AppletHookType.onOperationMode then s
  else
    match mode with
    | AppletOperationMode.docked =>
        { s with
          s_width := 1920
          s_height := 1080
          style := scaleAllSizes s.style (2.6 / 1.9)
          io := { s.io with fontGlobalScale := 1.6 } }
    | _ =>
        { s with
          s_width := 1280
          s_height := 720
          style := scaleAllSizes s.style (1.9 / 2.6)
          io := { s.io with fontGlobalScale := 0.9 } }

/-- `updateTouch`: returns unchanged when `hidTouchCount() < 1`;
otherwise reads the first touch sample `(px, py)`, stores it in
`s_mousePos` and presses mouse button 0. -/
def updateTouch (touchCount : Nat) (px py : Nat) (s : NxState) : NxState :=
  if touchCount < 1 then s
  else
    { s with
      s_mousePosX := (px : ℚ)
      s_mousePosY := (py : ℚ)
      io := { s.io with mouseDown0 := true } }

/-- `imgui::nx::init`: optionally loads the two shared fonts and builds
the atlas (only when both `plGetSharedFontByType` calls succeed), zeroes
`WindowRounding`, applies the mode-dependent resolution/scale settings
(`Handheld` vs everything else), registers the applet hook, disables the
ini file, marks the config as touch screen, hides the mouse cursor, and
returns `true`. -/
def init (stdFontOk extFontOk : Bool) (mode : AppletOperationMode)
    (s : NxState) : Bool × NxState :=
  let s1 :=
    if stdFontOk && extFontOk then
      { s with
        io := { s.io with
                fontsAdded := s.io.fontsAdded + 2
                fontAtlasNoPowTwoHeight := true
                fontAtlasBuilt := true } }
    else s
  let s2 := { s1 with style := { s1.style with windowRounding := 0 } }
  let s3 :=
    if mode = AppletOperationMode.handheld then
      { s2 with
        s_width := 1280
        s_height := 720
        style := scaleAllSizes s2.style 1.9
        io := { s2.io with fontGlobalScale := 0.9 } }
    else
      { s2 with
        s_width := 1920
        s_height := 1080
        style := scaleAllSizes s2.style 2.6
        io := { s2.io with fontGlobalScale := 1.6 } }
  let s4 := { s3 with
              hookActive := true
              hookRegistrations := s3.hookRegistrations + 1 }
  let s5 := { s4 with
              io := { s4.io with
                      iniFilenameDisabled := true
                      configFlagsIsTouchScreen := true
                      mouseDrawCursor := false } }
  (true, s5)

/-- `imgui::nx::newFrame`: writes the display metrics, sets `DeltaTime`
to `now - prev` and advances `prev` to `now`, runs `updateTouch`, then
clamps `s_mousePos` to `[0, s_width] × [0, s_height]` and copies it to
`io.MousePos`. -/
def newFrame (now : ℚ) (touchCount px py : Nat) (s : NxState) : NxState :=
  let s1 := { s with
              prevTime := now
              io := { s.io with
                      displaySizeX := s.s_width
                      displaySizeY := s.s_height
                      displayFramebufferScaleX := 1
                      displayFramebufferScaleY := 1
                      deltaTime := now - s.prevTime } }
  let s2 := updateTouch touchCount px py s1
  let mx := stdClamp s2.s_mousePosX 0 s2.s_width
  let my := stdClamp s2.s_mousePosY 0 s2.s_height
  { s2 with
    s_mousePosX := mx
    s_mousePosY := my
    io := { s2.io with mousePosX := mx, mousePosY := my } }

/-- `imgui::nx::exit`: unregisters the applet hook and does nothing
else. -/
def exit (s : NxState) : NxState :=
  { s with hookActive := false }

/-- One observable operation on the backend, for temporal claims about
sequences of calls. -/
inductive Op
  | opInit (stdFontOk extFontOk : Bool) (mode : AppletOperationMode)
  | opNewFrame (now : ℚ) (touchCount px py : Nat)
  | opExit
  | opHook (t : AppletHookType) (mode : AppletOperationMode)

/-- The state transition of one operation. -/
def step (op : Op) (s : NxState) : NxState :=
  match op with
  | Op.opInit a b mode => (init a b mode s).2
  | Op.opNewFrame now tc px py => newFrame now tc px py s
  | Op.opExit => exit s
  | Op.opHook t mode => handleAppletHook t mode s

/-- Running a sequence of operations from a state. -/
def run (ops : List Op) (s : NxState) : NxState :=
  ops.foldl (fun st op => step op st) s

/-- A concrete state matching the initial values of the globals in the
source (`s_width = 1280`, `s_height = 720`, `s_mousePos = (0, 0)`), used
by witnesses. -/
def startState : NxState where
  s_width := 1280
  s_height := 720
  s_mousePosX := 0
  s_mousePosY := 0
  prevTime := 0
  hookActive := false
  hookRegistrations := 0
  style := { windowRounding := 1, sizeScale := 1 }
  io :=
    { displaySizeX := 0
      displaySizeY := 0
      displayFramebufferScaleX := 0
      displayFramebufferScaleY := 0
      deltaTime := 0
      mousePosX := 0
      mousePosY := 0
      mouseDown0 := false
      fontGlobalScale := 1
      mouseDrawCursor := true
      iniFilenameDisabled := false
      configFlagsIsTouchScreen := false
      fontsAdded := 0
      fontAtlasNoPowTwoHeight := false
      fontAtlasBuilt := false }


/-- Bounds of `std::clamp` against a lower bound of `0` and a
nonnegative upper bound. -/
theorem stdClamp_zero_le (v hi : ℚ) (h : 0 ≤ hi) :
    0 ≤ stdClamp v 0 hi ∧ stdClamp v 0 hi ≤ hi := by
  unfold stdClamp
  split_ifs <;> constructor <;> linarith

/-- Claim C1: on an `OnOperationMode` applet-hook event, handheld mode
sets the cached display size to 1280x720 and the font global scale to
0.9, and docked mode sets the cached display size to 1920x1080 and the
font global scale to 1.6. -/
theorem claim1_hook_operation_mode (s : NxState) :
    ((handleAppletHook AppletHookType.onOperationMode
        AppletOperationMode.handheld s).s_width = 1280 ∧
     (handleAppletHook AppletHookType.onOperationMode
        AppletOperationMode.handheld s).s_height = 720 ∧
     (handleAppletHook AppletHookType.onOperationMode
        AppletOperationMode.handheld s).io.fontGlobalScale = 0.9) ∧
    ((handleAppletHook AppletHookType.onOperationMode
        AppletOperationMode.docked s).s_width = 1920 ∧
     (handleAppletHook AppletHookType.onOperationMode
        AppletOperationMode.docked s).s_height = 1080 ∧
     (handleAppletHook AppletHookType.onOperationMode
        AppletOperationMode.docked s).io.fontGlobalScale = 1.6) := by
  refine ⟨⟨?_, ?_, ?_⟩, ?_, ?_, ?_⟩ <;> simp [handleAppletHook]

/-- Claim C2: after every `newFrame` call the pointer position written
to the IO structure lies inside the current display bounds, provided the
cached display size is nonnegative (it is always 1280x720 or 1920x1080
in the program). -/
theorem claim2_newFrame_mouse_clamped (now : ℚ) (tc px py : Nat)
    (s : NxState) (hw : 0 ≤ s.s_width) (hh : 0 ≤ s.s_height) :
    0 ≤ (newFrame now tc px py s).io.mousePosX ∧
    (newFrame now tc px py s).io.mousePosX
      ≤ (newFrame now tc px py s).s_width ∧
    0 ≤ (newFrame now tc px py s).io.mousePosY ∧
    (newFrame now tc px py s).io.mousePosY
      ≤ (newFrame now tc px py s).s_height := by
  unfold newFrame updateTouch
  by_cases htc : tc < 1 <;>
    simp only [htc, if_true, if_false, ite_true, ite_false] <;>
    exact ⟨(stdClamp_zero_le _ _ hw).1, (stdClamp_zero_le _ _ hw).2,
           (stdClamp_zero_le _ _ hh).1, (stdClamp_zero_le _ _ hh).2⟩

/-- Witness for C2 at a concrete out-of-bounds touch. -/
theorem claim2_newFrame_mouse_clamped_witness :
    0 ≤ (newFrame 1 1 9999 5 startState).io.mousePosX ∧
    (newFrame 1 1 9999 5 startState).io.mousePosX
      ≤ (newFrame 1 1 9999 5 startState).s_width ∧
    0 ≤ (newFrame 1 1 9999 5 startState).io.mousePosY ∧
    (newFrame 1 1 9999 5 startState).io.mousePosY
      ≤ (newFrame 1 1 9999 5 startState).s_height :=
  claim2_newFrame_mouse_clamped 1 1 9999 5 startState
    (by norm_num [startState]) (by norm_num [startState])

/-- Claim C3: font-loading failures are silently tolerated: when either
shared-font load fails, `init` leaves the font atlas untouched, and on
every path `init` returns `true`. -/
theorem claim3_init_font_failure_silent (a b : Bool)
    (mode : AppletOperationMode) (s : NxState) :
    (init a b mode s).1 = true ∧
    ((a && b) = false →
      ((init a b mode s).2.io.fontsAdded = s.io.fontsAdded ∧
       (init a b mode s).2.io.fontAtlasNoPowTwoHeight
         = s.io.fontAtlasNoPowTwoHeight ∧
       (init a b mode s).2.io.fontAtlasBuilt = s.io.fontAtlasBuilt)) := by
  refine ⟨rfl, fun h => ?_⟩
  by_cases hm : mode = AppletOperationMode.handheld <;>
    simp [init, h, hm]

/-- Witness for C3: the standard font load fails. -/
theorem claim3_init_font_failure_silent_witness :
    (init false true AppletOperationMode.handheld startState).1 = true ∧
    (init false true AppletOperationMode.handheld
      startState).2.io.fontAtlasBuilt = startState.io.fontAtlasBuilt :=
  ⟨(claim3_init_font_failure_silent false true
      AppletOperationMode.handheld startState).1,
   ((claim3_init_font_failure_silent false true
      AppletOperationMode.handheld startState).2 rfl).2.2⟩

/-- Claim C4: `updateTouch` is guarded only by the touch count: with
fewer than one touch it changes nothing; with at least one touch it sets
the cached pointer position to the first sample and presses mouse
button 0. -/
theorem claim4_updateTouch_guard (tc px py : Nat) (s : NxState) :
    (tc < 1 → updateTouch tc px py s = s) ∧
    (1 ≤ tc →
      ((updateTouch tc px py s).s_mousePosX = (px : ℚ) ∧
       (updateTouch tc px py s).s_mousePosY = (py : ℚ) ∧
       (updateTouch tc px py s).io.mouseDown0 = true)) := by
  constructor
  · intro h
    simp [updateTouch, h]
  · intro h
    simp [updateTouch, Nat.not_lt.mpr h]

/-- Witness for C4 at touch counts 0 and 2. -/
theorem claim4_updateTouch_guard_witness :
    updateTouch 0 3 4 startState = startState ∧
    (updateTouch 2 3 4 startState).io.mouseDown0 = true :=
  ⟨(claim4_updateTouch_guard 0 3 4 startState).1 (by decide),
   ((claim4_updateTouch_guard 2 3 4 startState).2 (by decide)).2.2⟩

/-- Claim C5: every `newFrame` call sets `DeltaTime` to the time elapsed
since the stored previous time point and stores the current time as the
new previous time point. -/
theorem claim5_newFrame_delta_time (now : ℚ) (tc px py : Nat)
    (s : NxState) :
    (newFrame now tc px py s).io.deltaTime = now - s.prevTime ∧
    (newFrame now tc px py s).prevTime = now := by
  unfold newFrame updateTouch
  by_cases htc : tc < 1 <;> simp [htc]

/-- Claim C6: `init` registers the applet hook exactly once and applies
the handheld settings when the mode is handheld and the docked settings
for every other mode value. -/
theorem claim6_init_hook_and_mode (a b : Bool)
    (mode : AppletOperationMode) (s : NxState) :
    (init a b mode s).2.hookRegistrations = s.hookRegistrations + 1 ∧
    (init a b mode s).2.hookActive = true ∧
    (mode = AppletOperationMode.handheld →
      ((init a b mode s).2.s_width = 1280 ∧
       (init a b mode s).2.s_height = 720 ∧
       (init a b mode s).2.io.fontGlobalScale = 0.9)) ∧
    (mode ≠ AppletOperationMode.handheld →
      ((init a b mode s).2.s_width = 1920 ∧
       (init a b mode s).2.s_height = 1080 ∧
       (init a b mode s).2.io.fontGlobalScale = 1.6)) := by
  by_cases hm : mode = AppletOperationMode.handheld <;>
    by_cases hf : (a && b) = true <;>
    simp [init, hm, hf]

/-- Witness for C6 in handheld mode and in an unknown mode. -/
theorem claim6_init_hook_and_mode_witness :
    (init true true AppletOperationMode.handheld
      startState).2.s_width = 1280 ∧
    (init true true (AppletOperationMode.other 7)
      startState).2.s_width = 1920 :=
  ⟨((claim6_init_hook_and_mode true true AppletOperationMode.handheld
      startState).2.2.1 rfl).1,
   ((claim6_init_hook_and_mode true true (AppletOperationMode.other 7)
      startState).2.2.2 (by decide)).1⟩

/-- Claim C7: `exit` only unregisters the applet hook; every other piece
of state — cached display size, cached pointer position, style, IO
structure, time — is unchanged. -/
theorem claim7_exit_only_unhooks (s : NxState) :
    (exit s).hookActive = false ∧
    (exit s).s_width = s.s_width ∧
    (exit s).s_height = s.s_height ∧
    (exit s).s_mousePosX = s.s_mousePosX ∧
    (exit s).s_mousePosY = s.s_mousePosY ∧
    (exit s).prevTime = s.prevTime ∧
    (exit s).hookRegistrations = s.hookRegistrations ∧
    (exit s).style = s.style ∧
    (exit s).io = s.io :=
  ⟨rfl, rfl, rfl, rfl, rfl, rfl, rfl, rfl, rfl⟩

/-- Claim C8: the applet hook callback returns immediately on every
event type other than `OnOperationMode`, leaving the whole state (cached
display size, style, font scale, everything else) unchanged. -/
theorem claim8_hook_ignores_other_events (t : AppletHookType)
    (mode : AppletOperationMode) (s : NxState)
    (h : t ≠ AppletHookType.onOperationMode) :
    handleAppletHook t mode s = s := by
  unfold handleAppletHook
  rw [if_pos h]

/-- Witness for C8 on a focus-style event. -/
theorem claim8_hook_ignores_other_events_witness :
    handleAppletHook (AppletHookType.otherEvent 0)
      AppletOperationMode.docked startState = startState :=
  claim8_hook_ignores_other_events (AppletHookType.otherEvent 0)
    AppletOperationMode.docked startState (by decide)

/-- Claim C9: for an operation mode that is neither handheld nor
docked, the hook callback's `default` branch applies the handheld
settings while the `else` branch of `init` applies the docked
settings. -/
theorem claim9_unknown_mode_inconsistent (n : Nat) (a b : Bool)
    (s : NxState) :
    ((handleAppletHook AppletHookType.onOperationMode
        (AppletOperationMode.other n) s).s_width = 1280 ∧
     (handleAppletHook AppletHookType.onOperationMode
        (AppletOperationMode.other n) s).s_height = 720 ∧
     (handleAppletHook AppletHookType.onOperationMode
        (AppletOperationMode.other n) s).io.fontGlobalScale = 0.9) ∧
    ((init a b (AppletOperationMode.other n) s).2.s_width = 1920 ∧
     (init a b (AppletOperationMode.other n) s).2.s_height = 1080 ∧
     (init a b (AppletOperationMode.other n) s).2.io.fontGlobalScale
       = 1.6) := by
  constructor
  · refine ⟨?_, ?_, ?_⟩ <;> simp [handleAppletHook]
  · by_cases hf : (a && b) = true <;>
      refine ⟨?_, ?_, ?_⟩ <;> simp [init, hf]

/-- Each single operation of the backend preserves a pressed mouse
button 0: no code path ever writes `false` to `MouseDown[0]`. -/
theorem step_preserves_mouseDown0 (op : Op) (s : NxState)
    (h : s.io.mouseDown0 = true) : (step op s).io.mouseDown0 = true := by
  cases op with
  | opInit a b mode =>
      by_cases hm : mode = AppletOperationMode.handheld <;>
        by_cases hf : (a && b) = true <;>
        simp [step, init, hm, hf, h]
  | opNewFrame now tc px py =>
      by_cases htc : tc < 1 <;>
        simp [step, newFrame, updateTouch, htc, h]
  | opExit => exact h
  | opHook t mode =>
      by_cases ht : t = AppletHookType.onOperationMode
      · cases mode <;> simp [step, handleAppletHook, ht, h]
      · simpa [step, handleAppletHook, ht] using h

/-- Claim C10: mouse button 0 is never released by this module: once a
state reports it pressed, any sequence of `init`, `newFrame`, `exit` and
hook-callback operations still reports it pressed. -/
theorem claim10_mouseDown0_never_released (ops : List Op) (s : NxState)
    (h : s.io.mouseDown0 = true) :
    (run ops s).io.mouseDown0 = true := by
  induction ops generalizing s with
  | nil => exact h
  | cons op rest ih => exact ih (step op s) (step_preserves_mouseDown0 op s h)

/-- Witness for C10: after one touched frame, an exit, a hook event and
an untouched frame keep the button pressed. -/
theorem claim10_mouseDown0_never_released_witness :
    (run [Op.opExit,
          Op.opHook AppletHookType.onOperationMode AppletOperationMode.docked,
          Op.opNewFrame 2 0 0 0]
      (newFrame 1 1 30 40 startState)).io.mouseDown0 = true :=
  claim10_mouseDown0_never_released _ (newFrame 1 1 30 40 startState)
    (by decide)

end ImguiNx
